import Mathlib

/-!
Shallow embedding of `bentoml/sklearn.py`: the sklearn model-serving adapter
(`save`, `load`, `_get_model_info`, `_SklearnRunner`, `load_runner`).

Conventions of the embedding:
* Python exceptions are `Except PyError`.
* The filesystem, as seen through the artifact codec (joblib), is a map
  from file path to the deserialized model object; `joblib.dump` writes a
  binding, `joblib.load` reads one back.
* The model store (`bentoml._internal.models.store`), the base `Runner`
  class (`bentoml._internal.service.runner`) and the joblib
  `parallel_backend` scope are collaborators whose code is not part of this
  adapter; they are modelled from the specification's contracts and each
  such definition is marked `Modelled from the spec:` in its doc comment.
* Python floats that the code rounds are modelled as rationals; the values
  the claims mention (halves) are exactly representable in both.
-/

namespace BentoSklearn

/-- A row of two-dimensional numeric input (one sample). -/
abbrev Row : Type := List ℚ

/-- Numeric output of the predictor: one value per input row. -/
abbrev Output : Type := List ℚ

/-- Python exceptions that the adapter code can raise. -/
inductive PyError where
  /-- `NameError`: the given identifier is not bound in any enclosing scope. -/
  | nameError (ident : String)
  /-- `IndexError`: list index out of range. -/
  | indexError
  /-- `NotFound` raised by `model_store.get` for an unknown tag. -/
  | tagNotFound (tag : String)
  /-- `BentoMLException` raised by `_get_model_info` when the stored module
  differs from this adapter module (the spec's `ModuleMismatch`). -/
  | moduleMismatch (tag savedModule : String)
  /-- The artifact codec failed to deserialize the file (spec `ArtifactCorrupt`). -/
  | artifactCorrupt (file : String)
  /-- The artifact codec's `dump` raised inside the registration scope. -/
  | artifactDumpFailed
deriving DecidableEq

/-- A duck-typed predictor object: the one capability the adapter uses is
`model.predict(input_data)`, which may itself raise. -/
structure Model where
  predict : List Row → Except PyError Output

/-- The filesystem as seen through the artifact codec: path to stored model. -/
def FS : Type := String → Option Model

/-- `joblib.dump(model, path)`: write the serialized model at `path`. -/
def joblib_dump (m : Model) (path : String) (fs : FS) : FS :=
  fun p => if p = path then some m else fs p

/-- `joblib.load(filename)`: deserialize the model stored at `filename`,
failing with `ArtifactCorrupt` when nothing readable is there. -/
def joblib_load (filename : String) (fs : FS) : Except PyError Model :=
  match fs filename with
  | some m => Except.ok m
  | none => Except.error (PyError.artifactCorrupt filename)

/-- The module's `__name__`. -/
def MODULE_NAME : String := "bentoml.sklearn"

/-- Modelled from the spec: `SAVE_NAMESPACE` is a constant imported from
`bentoml._internal.models`, which is not under `src/`; its concrete value is
an opaque file-stem string and nothing in the claims depends on it. -/
def SAVE_NAMESPACE : String := "saved_model"

/-- The artifact file name `f"{SAVE_NAMESPACE}.pkl"` used by both
`_get_model_info` and `save`. -/
def artifactFileName : String := SAVE_NAMESPACE ++ ".pkl"

/-- `os.path.join(path, name)`. -/
def path_join (dir name : String) : String := dir ++ "/" ++ name

/-- Metadata record the Model Store keeps for a registered tag
(owning module, filesystem path, framework context, custom metadata). -/
structure ModelInfo where
  tag : String
  module : String
  path : String
  frameworkContext : List (String × String)
  metadata : Option (List (String × String))

/-- Modelled from the spec: the Model Store (`bentoml._internal.models.store`,
not under `src/`) maps tags to `ModelInfo` and allocates fresh versions; here
it is an association list plus a version counter. -/
structure ModelStore where
  entries : List (String × ModelInfo)
  counter : Nat

/-- Modelled from the spec: `model_store.get(tag)` resolves a tag to its
`ModelInfo`, raising `NotFound` for an unknown tag. -/
def ModelStore.get (s : ModelStore) (tag : String) : Except PyError ModelInfo :=
  match s.entries.lookup tag with
  | some info => Except.ok info
  | none => Except.error (PyError.tagNotFound tag)

/-- `_get_model_info(tag, model_store)`: resolve the tag, fail when the
stored owning module differs from `__name__`, and otherwise return the
info together with the resolved model file path. -/
def get_model_info (tag : String) (store : ModelStore) :
    Except PyError (ModelInfo × String) :=
  match store.get tag with
  | Except.error e => Except.error e
  | Except.ok model_info =>
      if model_info.module ≠ MODULE_NAME then
        Except.error (PyError.moduleMismatch tag model_info.module)
      else
        Except.ok (model_info, path_join model_info.path artifactFileName)

/-- `load(tag, model_store)`: resolve through `_get_model_info`, then
deserialize the predictor from the resolved model file with joblib. -/
def load (tag : String) (store : ModelStore) (fs : FS) : Except PyError Model :=
  match get_model_info tag store with
  | Except.error e => Except.error e
  | Except.ok (_, model_file) => joblib_load model_file fs

/-- The names bound at the top level of `bentoml/sklearn.py` once the module
has loaded. Python binds, per statement: `os`, `t` (typing), `np` (numpy),
`Provide` and `inject` (simple_di), `BentoMLContainer`, `MODEL_EXT` and
`SAVE_NAMESPACE`, `Runner`, `BentoMLException` and `MissingDependencyException`
(the from-imports), `_MT`, `joblib` (an `import a.b.c as x` statement binds
only `x`, never `a`) and `parallel_backend`, then the module-level
definitions. In particular the name `sklearn` is never bound. -/
def moduleBoundNames : List String :=
  ["os", "t", "np", "Provide", "inject", "BentoMLContainer", "MODEL_EXT",
   "SAVE_NAMESPACE", "Runner", "BentoMLException", "MissingDependencyException",
   "_MT", "joblib", "parallel_backend", "_get_model_info", "load", "save",
   "_SklearnRunner", "load_runner"]

/-- The value the expression `sklearn.__version__` in `save` would produce if
the name `sklearn` resolved; the branch guarded by that resolution is
unreachable because the module never binds `sklearn`. -/
def sklearnVersionIfBound : String := "0.24.2"

/-- The version string the store allocates for the next registration. -/
def allocVersion (s : ModelStore) : String := "v" ++ toString (s.counter + 1)

/-- The tag (`name:version`) the store allocates for the next registration. -/
def allocTag (name : String) (s : ModelStore) : String :=
  name ++ ":" ++ allocVersion s

/-- The destination path the store allocates for the next registration. -/
def allocPath (name : String) (s : ModelStore) : String :=
  name ++ "/" ++ allocVersion s

/-- The `ModelInfo` record the store creates at registration time for
`register(name, module=__name__, metadata, framework_context)`. -/
def registeredInfo (name : String)
    (metadata : Option (List (String × String)))
    (context : List (String × String)) (s : ModelStore) : ModelInfo :=
  { tag := allocTag name s, module := MODULE_NAME, path := allocPath name s,
    frameworkContext := context, metadata := metadata }

/-- Modelled from the spec: `model_store.register(name, module=..., metadata,
framework_context)` (in `bentoml._internal.models.store`, not under `src/`)
is a scoped registration transaction: it allocates a fresh version and
destination path and yields `{path, tag}` to the body; the tag is committed
only if the scope exits without failure, and on an exception inside the
scope the store rolls back, left exactly as before. This definition is that
scope with `save`'s body inlined: `joblib.dump(model,
os.path.join(ctx.path, artifact file))` then `return ctx.tag`; the codec
operation `dump` may fail. -/
def saveRegister (name : String) (model : Model)
    (metadata : Option (List (String × String)))
    (context : List (String × String))
    (dump : Model → String → FS → Option FS)
    (s : ModelStore) (fs : FS) :
    Except PyError String × ModelStore × FS :=
  match dump model (path_join (allocPath name s) artifactFileName) fs with
  | none =>
      (Except.error PyError.artifactDumpFailed, s, fs)
  | some fs2 =>
      (Except.ok (allocTag name s),
       { entries := (allocTag name s, registeredInfo name metadata context s) :: s.entries,
         counter := s.counter + 1 }, fs2)

/-- `save(name, model, metadata, model_store)`. Its first statement is
`context = {"sklearn": sklearn.__version__}`, which looks up the name
`sklearn` in the enclosing scopes; only if that resolves does the code open
the registration scope (`saveRegister`). The codec operation is passed in as
`dump` so that a failing serialization can be studied. -/
def save (name : String) (model : Model)
    (metadata : Option (List (String × String)))
    (dump : Model → String → FS → Option FS)
    (s : ModelStore) (fs : FS) :
    Except PyError String × ModelStore × FS :=
  if moduleBoundNames.contains ("sklearn") then
    saveRegister name model metadata [("sklearn", sklearnVersionIfBound)]
      dump s fs
  else
    (Except.error (PyError.nameError ("sklearn")), s, fs)

/-- The honest codec `dump`: `joblib.dump` serializes the model at the path. -/
def dumpOk (m : Model) (path : String) (fs : FS) : Option FS :=
  some (joblib_dump m path fs)

/-- Python's `round` on a (dyadic-exact) numeric value: round half to even.
`int(round(x))` in the source is the same function, since one-argument
`round` already returns an integer. -/
def int_round (x : ℚ) : ℤ :=
  if x - ⌊x⌋ < 1 / 2 then ⌊x⌋
  else if 1 / 2 < x - ⌊x⌋ then ⌊x⌋ + 1
  else if ⌊x⌋ % 2 = 0 then ⌊x⌋ else ⌊x⌋ + 1

/-- Modelled from the spec: the `ResourceQuota` type lives in the base-class
package (not under `src/`); per the spec it declares a fractional CPU count
and an ordered list of GPU device identifiers. -/
structure ResourceQuota where
  cpu : ℚ
  gpus : List Nat

/-- The `joblib.parallel_backend(backend, n_jobs)` handle stored by
`_SklearnRunner.__init__`: a scoped "use up to n_jobs workers" context. -/
structure ParallelCtx where
  backend : String
  n_jobs : ℤ

/-- The `_SklearnRunner` object after a successful `__init__`. The fields
`tag`, `resource_quota` and `batch_options` are stored by the base-class
constructor (modelled from the spec: the base `Runner` class in
`bentoml._internal.service.runner` is not under `src/`; per the spec it
records the construction arguments immutably); `_model_info`, `_model_file`
and `_parallel_ctx` are set by `_SklearnRunner.__init__` itself. -/
structure SklearnRunner where
  tag : String
  resource_quota : ResourceQuota
  batch_options : List (String × String)
  model_info : ModelInfo
  model_file : String
  parallel_ctx : ParallelCtx

/-- `num_concurrency_per_replica`: `int(round(self.resource_quota.cpu))`. -/
def SklearnRunner.num_concurrency_per_replica (r : SklearnRunner) : ℤ :=
  int_round r.resource_quota.cpu

/-- `num_replica`: fixed at `1`. -/
def SklearnRunner.num_replica (_ : SklearnRunner) : ℤ := 1

/-- `required_models`: the single tag this runner depends on. -/
def SklearnRunner.required_models (r : SklearnRunner) : List String :=
  [r.model_info.tag]

/-- `_SklearnRunner.__init__(tag, resource_quota, batch_options, model_store)`:
store the construction arguments, resolve the tag through `_get_model_info`
(propagating its failures), and build the `parallel_backend("threading",
n_jobs=self.num_concurrency_per_replica)` handle. -/
def mkSklearnRunner (tag : String) (quota : ResourceQuota)
    (batch_options : List (String × String)) (store : ModelStore) :
    Except PyError SklearnRunner :=
  match get_model_info tag store with
  | Except.error e => Except.error e
  | Except.ok (model_info, model_file) =>
      Except.ok
        { tag := tag, resource_quota := quota, batch_options := batch_options,
          model_info := model_info, model_file := model_file,
          parallel_ctx :=
            { backend := "threading", n_jobs := int_round quota.cpu } }

/-- `load_runner(tag, resource_quota, batch_options, model_store)`: construct
and return an `_SklearnRunner` bound to the tag, quota and batch options. -/
def load_runner (tag : String) (quota : ResourceQuota)
    (batch_options : List (String × String)) (store : ModelStore) :
    Except PyError SklearnRunner :=
  mkSklearnRunner tag quota batch_options store

/-- The names visible inside the body of `_SklearnRunner._setup` when its
second statement runs: the parameter `self`, the local `gpu_device_id`
bound by the first statement, and the module-level names. The bare name
`model_file` is none of these (the instance attribute is `self._model_file`). -/
def setupScopeNames : List String :=
  "self" :: "gpu_device_id" :: moduleBoundNames

/-- `_SklearnRunner._setup(self)` for the replica `replica_id`, line by line:
`gpu_device_id = self.resource_quota.gpus[self.replica_id]` (an out-of-range
index raises `IndexError`), then `self._model = joblib.load(filename=model_file)`
where the bare name `model_file` must resolve in the enclosing scopes.
Returns the model that would be stored into `self._model`. -/
def SklearnRunner.setup (r : SklearnRunner) (replica_id : Nat) (fs : FS) :
    Except PyError Model :=
  match r.resource_quota.gpus.get? replica_id with
  | none => Except.error PyError.indexError
  | some _ =>
      if setupScopeNames.contains ("model_file") then
        joblib_load r.model_file fs
      else
        Except.error (PyError.nameError ("model_file"))

/-- Events emitted by the scoped concurrency context around inference. -/
inductive ScopeEvent where
  | scopeEnter (n_jobs : ℤ)
  | scopeExit
deriving DecidableEq

/-- Modelled from the spec: the scoped concurrency context (joblib's
`parallel_backend` handle used by a Python `with` statement; joblib is an
external collaborator, not code of this repository). Per the spec's contract
it is a "use up to N workers" scope entered for the duration of the call and
exited afterward regardless of outcome: the trace records entering with the
handle's worker budget, then the body runs (returning a value or raising),
then the scope is exited on every path. -/
def pyWith {α : Type} (ctx : ParallelCtx) (body : Except PyError α) :
    List ScopeEvent × Except PyError α :=
  ([ScopeEvent.scopeEnter ctx.n_jobs, ScopeEvent.scopeExit], body)

/-- `_SklearnRunner._run_batch(self, input_data)` on a replica whose state
holds the loaded predictor `m` (the `Ready` state's `self._model`):
`with self._parallel_ctx: return self._model.predict(input_data)`.
Returns the scope-event trace together with the outcome. -/
def SklearnRunner.run_batch (r : SklearnRunner) (m : Model)
    (input_data : List Row) : List ScopeEvent × Except PyError Output :=
  pyWith r.parallel_ctx (m.predict input_data)

/-- The phases of a Runner replica's lifecycle. -/
inductive ReplicaPhase where
  | uninit
  | loading
  | ready
  | failed
deriving DecidableEq

/-- A replica's lifecycle state, instrumented with a counter of artifact
deserialization calls (the spec's load-call counter on the codec mock). -/
structure ReplicaLC where
  phase : ReplicaPhase
  loadCount : Nat
deriving DecidableEq

/-- The fresh, uninitialized replica. -/
def ReplicaLC.init : ReplicaLC := { phase := ReplicaPhase.uninit, loadCount := 0 }

/-- Modelled from the spec: the base `Runner` class's per-replica lifecycle
(not under `src/`). `_setup` runs under a one-shot initialization barrier:
a caller's first-use step begins the artifact load only from `uninit`
(concurrent first-time callers are arbitrary interleavings of these atomic
steps, so a second caller finds the phase already `loading`, `ready` or
`failed` and performs no load); the load then finishes `ready` or `failed`,
and both of those phases are terminal for the process lifetime — there is no
transition back to `uninit` and no retry after failure. -/
inductive LCStep : ReplicaLC → ReplicaLC → Prop where
  | beginLoad (s : ReplicaLC) (h : s.phase = ReplicaPhase.uninit) :
      LCStep s { phase := ReplicaPhase.loading, loadCount := s.loadCount + 1 }
  | finishOk (s : ReplicaLC) (h : s.phase = ReplicaPhase.loading) :
      LCStep s { phase := ReplicaPhase.ready, loadCount := s.loadCount }
  | finishFail (s : ReplicaLC) (h : s.phase = ReplicaPhase.loading) :
      LCStep s { phase := ReplicaPhase.failed, loadCount := s.loadCount }

/-- States a replica can reach from fresh, through any interleaving. -/
def LCReachable (s : ReplicaLC) : Prop :=
  Relation.ReflTransGen LCStep ReplicaLC.init s

/-! Concrete objects used to exercise the development on closed inputs. -/

/-- A tag registered by this adapter. -/
def tagDemo : String := "demo:v1"

/-- Store metadata for `tagDemo`, owned by this adapter module. -/
def infoDemo : ModelInfo :=
  { tag := tagDemo, module := MODULE_NAME, path := "demo/v1",
    frameworkContext := [], metadata := none }

/-- A store holding exactly `tagDemo`. -/
def storeDemo : ModelStore := { entries := [(tagDemo, infoDemo)], counter := 1 }

/-- A CPU-only quota with a fractional CPU count and no GPU devices. -/
def quotaDemo : ResourceQuota := { cpu := 3 / 2, gpus := [] }

/-- The runner `_SklearnRunner.__init__` builds for `tagDemo` over
`quotaDemo` against `storeDemo`. -/
def runnerDemo : SklearnRunner :=
  { tag := tagDemo, resource_quota := quotaDemo, batch_options := [],
    model_info := infoDemo,
    model_file := path_join infoDemo.path artifactFileName,
    parallel_ctx := { backend := "threading", n_jobs := int_round quotaDemo.cpu } }

/-- An empty filesystem. -/
def fsEmpty : FS := fun _ => none

/-- An empty model store. -/
def storeEmpty : ModelStore := { entries := [], counter := 0 }

/-- A predictor returning `0` for every row: row-preserving by construction. -/
def modelZero : Model := ⟨fun xs => Except.ok (xs.map fun _ => 0)⟩

/-- A predictor whose inference call raises. -/
def modelRaise : Model :=
  ⟨fun _ => Except.error (PyError.artifactCorrupt ("boom"))⟩

/-- A codec `dump` that always fails. -/
def dumpFail (_ : Model) (_ : String) (_ : FS) : Option FS := none

/-- `runnerDemo` over a CPU quota of exactly one half, no GPUs. -/
def runnerHalf : SklearnRunner :=
  { runnerDemo with resource_quota := { cpu := 1 / 2, gpus := [] } }

/-- `runnerDemo` over a CPU quota of exactly five halves, no GPUs. -/
def runnerTwoHalf : SklearnRunner :=
  { runnerDemo with resource_quota := { cpu := 5 / 2, gpus := [] } }

/-- `runnerDemo` over a quota that does list a GPU device. -/
def runnerGpu : SklearnRunner :=
  { runnerDemo with resource_quota := { cpu := 1, gpus := [0] } }

/-- A three-row input batch. -/
def demoRows : List Row := [[1], [2], [3]]

/-- A tag registered by a different adapter module. -/
def tagOther : String := "other:v1"

/-- Store metadata recording a different owning module. -/
def infoOther : ModelInfo :=
  { tag := tagOther, module := "bentoml.xgboost", path := "other/v1",
    frameworkContext := [], metadata := none }

/-- A store holding exactly `tagOther`. -/
def storeOther : ModelStore := { entries := [(tagOther, infoOther)], counter := 1 }

/-! Theorems. -/

/-- Python's `round` at an exact half rounds to the even neighbour. -/
theorem int_round_half (m : ℤ) :
    int_round ((m : ℚ) + 1 / 2) = if m % 2 = 0 then m else m + 1 := by
  have hf : ⌊(m : ℚ) + 1 / 2⌋ = m := by
    rw [Int.floor_int_add]
    norm_num
  unfold int_round
  rw [hf]
  have hx : ((m : ℚ) + 1 / 2) - (m : ℤ) = 1 / 2 := by ring
  rw [hx]
  norm_num

/-- A successful `_SklearnRunner.__init__` stores the supplied quota
unchanged and sizes the `parallel_backend` handle from it. -/
theorem mk_ok_fields (tag : String) (q : ResourceQuota)
    (b : List (String × String)) (store : ModelStore) (r : SklearnRunner)
    (h : mkSklearnRunner tag q b store = Except.ok r) :
    r.resource_quota = q ∧
    r.parallel_ctx = { backend := "threading", n_jobs := int_round q.cpu } := by
  unfold mkSklearnRunner at h
  cases hg : get_model_info tag store with
  | error e => rw [hg] at h; cases h
  | ok p =>
      rw [hg] at h
      cases h
      exact ⟨rfl, rfl⟩

/-- C1: for every ResourceQuota with `cpu = c` supplied at Runner
construction, the constructed Runner's `num_concurrency_per_replica` equals
`round(c)` (Python rounding, `int_round`) and its `num_replica` equals 1. -/
theorem C1_runner_concurrency_replica_plan (tag : String) (q : ResourceQuota)
    (b : List (String × String)) (store : ModelStore) (r : SklearnRunner)
    (h : mkSklearnRunner tag q b store = Except.ok r) :
    r.num_concurrency_per_replica = int_round q.cpu ∧ r.num_replica = 1 := by
  obtain ⟨hq, -⟩ := mk_ok_fields tag q b store r h
  constructor
  · show int_round r.resource_quota.cpu = int_round q.cpu
    rw [hq]
  · rfl

/-- Witness for C1 at the concrete store, tag and quota. -/
theorem C1_runner_concurrency_replica_plan_witness :
    runnerDemo.num_concurrency_per_replica = int_round quotaDemo.cpu ∧
    runnerDemo.num_replica = 1 :=
  C1_runner_concurrency_replica_plan tagDemo quotaDemo [] storeDemo runnerDemo rfl

/-- C2 (code bug, evaluated at the failing inputs): `_setup` on a CPU-only
quota (empty GPU device list) raises `IndexError` while consulting the
quota's GPU device ids instead of deserializing the model; and even with a
GPU device listed it raises `NameError`, because it reads the unbound bare
name `model_file` rather than `self._model_file`. -/
theorem C2_setup_consults_gpus_and_crashes :
    runnerHalf.setup 0 fsEmpty = Except.error PyError.indexError ∧
    runnerGpu.setup 0 fsEmpty = Except.error (PyError.nameError ("model_file")) :=
  ⟨rfl, rfl⟩

/-- C3: on a Ready replica, `run_batch` over an input of `N ≥ 1` rows with a
row-preserving predictor returns exactly the input rows mapped in place: the
output has `N` rows and the `i`-th output comes from the `i`-th input, so no
row is dropped, reordered or duplicated. -/
theorem C3_run_batch_row_preserving (r : SklearnRunner) (m : Model)
    (g : Row → ℚ) (input : List Row)
    (hm : ∀ xs, m.predict xs = Except.ok (xs.map g)) (_hn : 1 ≤ input.length) :
    (r.run_batch m input).2 = Except.ok (input.map g) ∧
    (input.map g).length = input.length ∧
    ∀ i : Nat, (input.map g)[i]? = (input[i]?).map g := by
  refine ⟨hm input, by simp, ?_⟩
  intro i
  exact List.getElem?_map g input i

/-- Witness for C3 at a concrete Ready runner, predictor and 3-row batch. -/
theorem C3_run_batch_row_preserving_witness :
    (runnerDemo.run_batch modelZero demoRows).2 =
      Except.ok (demoRows.map fun _ => (0 : ℚ)) ∧
    (demoRows.map fun _ => (0 : ℚ)).length = demoRows.length ∧
    ∀ i : Nat, (demoRows.map fun _ => (0 : ℚ))[i]? =
      (demoRows[i]?).map fun _ => (0 : ℚ) :=
  C3_run_batch_row_preserving runnerDemo modelZero (fun _ => 0) demoRows
    (fun _ => rfl) (by decide)

/-- C4: for a stored tag whose `ModelInfo` records a different owning module,
`load` fails with the module-mismatch error and never returns a model; for a
matching module, `load` deserializes from the resolved model file, returning
the predictor stored there. -/
theorem C4_load_module_check (tag : String) (store : ModelStore)
    (info : ModelInfo) (fs : FS) (h : store.get tag = Except.ok info) :
    (info.module ≠ MODULE_NAME →
      load tag store fs = Except.error (PyError.moduleMismatch tag info.module)) ∧
    (info.module = MODULE_NAME →
      load tag store fs = joblib_load (path_join info.path artifactFileName) fs) ∧
    (info.module = MODULE_NAME → ∀ m : Model,
      fs (path_join info.path artifactFileName) = some m →
      load tag store fs = Except.ok m) := by
  have hload : load tag store fs =
      if info.module ≠ MODULE_NAME then
        Except.error (PyError.moduleMismatch tag info.module)
      else joblib_load (path_join info.path artifactFileName) fs := by
    unfold load get_model_info
    rw [h]
    by_cases hc : info.module = MODULE_NAME
    · simp [hc]
    · simp [hc]
  refine ⟨?_, ?_, ?_⟩
  · intro hne
    rw [hload, if_pos hne]
  · intro heq
    rw [hload, if_neg (by simp [heq])]
  · intro heq m hm
    rw [hload, if_neg (by simp [heq])]
    unfold joblib_load
    rw [hm]

/-- Witness for C4 at a concrete store whose entry records another module. -/
theorem C4_load_module_check_witness :
    load tagOther storeOther fsEmpty =
      Except.error (PyError.moduleMismatch tagOther infoOther.module) :=
  (C4_load_module_check tagOther storeOther infoOther fsEmpty rfl).1 (by decide)

/-- C5 (code bug, evaluated at the failing input): `save` raises
`NameError` on its first statement — `sklearn.__version__` where the module
never binds `sklearn` — before the registration scope opens, so it never
returns a tag and the round-trip law cannot hold; the store is untouched. -/
theorem C5_save_never_returns_tag :
    (save ("iris") modelZero none dumpOk storeEmpty fsEmpty).1 =
      Except.error (PyError.nameError ("sklearn")) ∧
    (save ("iris") modelZero none dumpOk storeEmpty fsEmpty).2.1 = storeEmpty :=
  ⟨rfl, rfl⟩

/-- C6: when the codec's `dump` fails inside the registration scope, the
registration (the scope of `save`) propagates the failure and leaves the
store — hence every committed tag — and the filesystem exactly as they were:
as if the save never happened. -/
theorem C6_failing_dump_rolls_back (name : String) (model : Model)
    (metadata : Option (List (String × String)))
    (context : List (String × String))
    (dump : Model → String → FS → Option FS) (s : ModelStore) (fs : FS)
    (hdump : dump model (path_join (allocPath name s) artifactFileName) fs = none) :
    saveRegister name model metadata context dump s fs =
      (Except.error PyError.artifactDumpFailed, s, fs) := by
  unfold saveRegister
  rw [hdump]

/-- Witness for C6 at a concrete always-failing codec. -/
theorem C6_failing_dump_rolls_back_witness :
    saveRegister ("iris") modelZero none [] dumpFail storeEmpty fsEmpty =
      (Except.error PyError.artifactDumpFailed, storeEmpty, fsEmpty) :=
  C6_failing_dump_rolls_back ("iris") modelZero none [] dumpFail storeEmpty
    fsEmpty rfl

/-- C7: on every call (`run_batch` is a pure function of the immutable
runner, so every call over the runner's lifetime behaves alike), inference
runs inside the worker-budget scope sized at construction to exactly
`num_concurrency_per_replica` workers; the scope is entered at the start and
exited at the end of the trace whatever the predictor does — the quantified
`m` includes predictors whose inference call raises. -/
theorem C7_run_batch_scoped_concurrency (tag : String) (q : ResourceQuota)
    (b : List (String × String)) (store : ModelStore) (r : SklearnRunner)
    (h : mkSklearnRunner tag q b store = Except.ok r) (m : Model) (x : List Row) :
    (r.run_batch m x).1 =
      [ScopeEvent.scopeEnter (int_round q.cpu), ScopeEvent.scopeExit] ∧
    int_round q.cpu = r.num_concurrency_per_replica ∧
    (r.run_batch m x).2 = m.predict x := by
  obtain ⟨hq, hctx⟩ := mk_ok_fields tag q b store r h
  refine ⟨?_, ?_, rfl⟩
  · show (pyWith r.parallel_ctx (m.predict x)).1 = _
    rw [hctx]
    rfl
  · show int_round q.cpu = int_round r.resource_quota.cpu
    rw [hq]

/-- Witness for C7 at a concrete runner and a raising predictor. -/
theorem C7_run_batch_scoped_concurrency_witness :
    (runnerDemo.run_batch modelRaise []).1 =
      [ScopeEvent.scopeEnter (int_round quotaDemo.cpu), ScopeEvent.scopeExit] ∧
    int_round quotaDemo.cpu = runnerDemo.num_concurrency_per_replica ∧
    (runnerDemo.run_batch modelRaise []).2 = modelRaise.predict [] :=
  C7_run_batch_scoped_concurrency tagDemo quotaDemo [] storeDemo runnerDemo rfl
    modelRaise []

/-- C8 (code bug, evaluated at the failing input): the module never binds the
name `sklearn`, so the first statement of `save` — building the framework
context `{"sklearn": sklearn.__version__}` — raises `NameError` and `save`
fails before registering anything. -/
theorem C8_framework_context_name_unbound :
    moduleBoundNames.contains ("sklearn") = false ∧
    (save ("clf") modelZero none dumpOk storeDemo fsEmpty).1 =
      Except.error (PyError.nameError ("sklearn")) ∧
    (save ("clf") modelZero none dumpOk storeDemo fsEmpty).2.1 = storeDemo :=
  ⟨by decide, rfl, rfl⟩

/-- C9: under the one-shot initialization barrier, every state a replica can
reach — through any interleaving of concurrent first-use callers — has
performed at most one artifact deserialization. -/
theorem C9_artifact_loaded_at_most_once (s : ReplicaLC) (h : LCReachable s) :
    s.loadCount ≤ 1 := by
  have main : ∀ t : ReplicaLC, LCReachable t →
      t.loadCount ≤ 1 ∧ (t.phase = ReplicaPhase.uninit → t.loadCount = 0) := by
    intro t ht
    induction ht with
    | refl => exact ⟨Nat.zero_le 1, fun _ => rfl⟩
    | tail hab step ih =>
        cases step with
        | beginLoad hu =>
            have h0 := ih.2 hu
            refine ⟨by simp [h0], ?_⟩
            intro hph
            simp at hph
        | finishOk hu =>
            exact ⟨ih.1, by intro hph; simp at hph⟩
        | finishFail hu =>
            exact ⟨ih.1, by intro hph; simp at hph⟩
  exact (main s h).1

/-- Witness for C9 at the state reached by one full begin-and-finish load. -/
theorem C9_artifact_loaded_at_most_once_witness :
    ({ phase := ReplicaPhase.ready, loadCount := 1 } : ReplicaLC).loadCount ≤ 1 :=
  C9_artifact_loaded_at_most_once { phase := ReplicaPhase.ready, loadCount := 1 }
    (Relation.ReflTransGen.tail
      (Relation.ReflTransGen.single (LCStep.beginLoad ReplicaLC.init rfl))
      (LCStep.finishOk { phase := ReplicaPhase.loading, loadCount := 1 } rfl))

/-- C10: `num_concurrency_per_replica` is `int(round(cpu))` with Python's
round-half-to-even: a cpu exactly halfway between two integers rounds to the
even neighbour, so `cpu = 0.5` yields 0 workers and `cpu = 2.5` yields 2;
in particular a positive non-integral cpu quota can yield a zero budget. -/
theorem C10_round_half_to_even :
    (∀ (r : SklearnRunner) (m : ℤ), r.resource_quota.cpu = (m : ℚ) + 1 / 2 →
      r.num_concurrency_per_replica = if m % 2 = 0 then m else m + 1) ∧
    (∀ r : SklearnRunner, r.resource_quota.cpu = 1 / 2 →
      r.num_concurrency_per_replica = 0) ∧
    (∀ r : SklearnRunner, r.resource_quota.cpu = 5 / 2 →
      r.num_concurrency_per_replica = 2) ∧
    (∃ c : ℚ, 0 < c ∧ (∀ n : ℤ, (n : ℚ) ≠ c) ∧
      ∀ r : SklearnRunner, r.resource_quota.cpu = c →
        r.num_concurrency_per_replica = 0) := by
  have base : ∀ (r : SklearnRunner) (m : ℤ), r.resource_quota.cpu = (m : ℚ) + 1 / 2 →
      r.num_concurrency_per_replica = if m % 2 = 0 then m else m + 1 := by
    intro r m h
    show int_round r.resource_quota.cpu = _
    rw [h, int_round_half]
  refine ⟨base, ?_, ?_, ?_⟩
  · intro r h
    have := base r 0 (by rw [h]; norm_num)
    simpa using this
  · intro r h
    have := base r 2 (by rw [h]; norm_num)
    simpa using this
  · refine ⟨1 / 2, by norm_num, ?_, ?_⟩
    · intro n hn
      have hd := Rat.den_intCast n
      rw [hn] at hd
      norm_num at hd
    · intro r h
      have := base r 0 (by rw [h]; norm_num)
      simpa using this

/-- Witness for C10 at runners whose quotas are a half and five halves. -/
theorem C10_round_half_to_even_witness :
    runnerHalf.num_concurrency_per_replica = 0 ∧
    runnerTwoHalf.num_concurrency_per_replica = 2 :=
  ⟨C10_round_half_to_even.2.1 runnerHalf rfl,
   C10_round_half_to_even.2.2.1 runnerTwoHalf rfl⟩

end BentoSklearn
